import Mathlib

/-!
Verification of the miband2 protocol layer: the authentication handshake
state machine (authsession.py, class Session) and the binary codec helpers
(band2.py).  Bytes are modelled as Nat values below 256, byte strings as
List Nat.  The AES-128 single-block ECB encryption performed by
Session._send_enc_msg via the pyaes library is embedded from first
principles (FIPS-197): GF(2^8) arithmetic, the S-box as the affine image of
the multiplicative inverse, key expansion and the ten rounds.
-/

namespace MiBand2

/-- Multiplication by x in GF(2^8) modulo x^8 + x^4 + x^3 + x + 1:
doubling with conditional reduction by 0x1b. -/
def xtime (b : Nat) : Nat := if b < 128 then 2 * b else ((2 * b) % 256) ^^^ 27

/-- Fuelled russian-peasant product accumulator in GF(2^8). -/
def gmulAux : Nat → Nat → Nat → Nat
  | 0, _, _ => 0
  | n + 1, a, b => (if b % 2 = 1 then a else 0) ^^^ gmulAux n (xtime a) (b / 2)

/-- GF(2^8) multiplication of two bytes. -/
def gmul (a b : Nat) : Nat := gmulAux 8 a b

/-- Multiplicative inverse in GF(2^8) by exhaustive search; 0 maps to 0. -/
def ginv (b : Nat) : Nat := ((List.range 256).filter (fun c => gmul b c == 1)).headD 0

/-- Rotate an 8-bit value left by one position. -/
def rotl8 (x : Nat) : Nat := ((2 * x) % 256) ||| (x / 128)

/-- The AES S-box: affine transform of the GF(2^8) inverse (FIPS-197 5.1.1). -/
def sB (b : Nat) : Nat :=
  let i := ginv b
  i ^^^ rotl8 i ^^^ rotl8 (rotl8 i) ^^^ rotl8 (rotl8 (rotl8 i)) ^^^
    rotl8 (rotl8 (rotl8 (rotl8 i))) ^^^ 99

/-- The ten AES-128 round constants. -/
def rcons : List Nat := [1, 2, 4, 8, 16, 32, 64, 128, 27, 54]

/-- One step of AES-128 key expansion: from a 16-byte round key and a round
constant produce the next 16-byte round key (FIPS-197 5.2, flattened to
bytes; words are the four consecutive 4-byte groups). -/
def expandRound (rc : Nat) (pk : List Nat) : List Nat :=
  let g := fun i => pk.getD i 0
  let n0 := g 0 ^^^ (sB (g 13) ^^^ rc)
  let n1 := g 1 ^^^ sB (g 14)
  let n2 := g 2 ^^^ sB (g 15)
  let n3 := g 3 ^^^ sB (g 12)
  let n4 := g 4 ^^^ n0
  let n5 := g 5 ^^^ n1
  let n6 := g 6 ^^^ n2
  let n7 := g 7 ^^^ n3
  let n8 := g 8 ^^^ n4
  let n9 := g 9 ^^^ n5
  let n10 := g 10 ^^^ n6
  let n11 := g 11 ^^^ n7
  let n12 := g 12 ^^^ n8
  let n13 := g 13 ^^^ n9
  let n14 := g 14 ^^^ n10
  let n15 := g 15 ^^^ n11
  [n0, n1, n2, n3, n4, n5, n6, n7, n8, n9, n10, n11, n12, n13, n14, n15]

/-- Iterate key expansion over a list of round constants, collecting the
successive round keys. -/
def expandFrom (k : List Nat) : List Nat → List (List Nat)
  | [] => []
  | rc :: rcs =>
    let k2 := expandRound rc k
    k2 :: expandFrom k2 rcs

/-- The eleven AES-128 round keys (round key 0 is the cipher key itself). -/
def roundKeys (key : List Nat) : List (List Nat) := key :: expandFrom key rcons

/-- SubBytes: apply the S-box to every state byte. -/
def subBytes (s : List Nat) : List Nat := s.map sB

/-- ShiftRows on the flat column-major 16-byte state. -/
def shiftRows (s : List Nat) : List Nat :=
  let g := fun i => s.getD i 0
  [g 0, g 5, g 10, g 15, g 4, g 9, g 14, g 3,
   g 8, g 13, g 2, g 7, g 12, g 1, g 6, g 11]

/-- MixColumns on one 4-byte column (multiplication by the fixed circulant
matrix over GF(2^8); 02 via xtime, 03 as xtime plus identity). -/
def mixColumn (a0 a1 a2 a3 : Nat) : List Nat :=
  [xtime a0 ^^^ (xtime a1 ^^^ a1) ^^^ a2 ^^^ a3,
   a0 ^^^ xtime a1 ^^^ (xtime a2 ^^^ a2) ^^^ a3,
   a0 ^^^ a1 ^^^ xtime a2 ^^^ (xtime a3 ^^^ a3),
   (xtime a0 ^^^ a0) ^^^ a1 ^^^ a2 ^^^ xtime a3]

/-- MixColumns over the whole 16-byte state. -/
def mixColumns (s : List Nat) : List Nat :=
  let g := fun i => s.getD i 0
  mixColumn (g 0) (g 1) (g 2) (g 3) ++ mixColumn (g 4) (g 5) (g 6) (g 7) ++
    mixColumn (g 8) (g 9) (g 10) (g 11) ++ mixColumn (g 12) (g 13) (g 14) (g 15)

/-- AddRoundKey: bytewise xor of state and round key. -/
def addRoundKey (s k : List Nat) : List Nat := List.zipWith Nat.xor s k

/-- One ordinary AES round. -/
def aesRound (s k : List Nat) : List Nat := addRoundKey (mixColumns (shiftRows (subBytes s))) k

/-- The final AES round (no MixColumns). -/
def aesFinalRound (s k : List Nat) : List Nat := addRoundKey (shiftRows (subBytes s)) k

/-- AES-128 encryption of one 16-byte block, the operation performed by
pyaes.AESModeOfOperationECB(key).encrypt(block) in Session._send_enc_msg. -/
def aes128EncryptBlock (key pt : List Nat) : List Nat :=
  let ks := roundKeys key
  let s0 := addRoundKey pt (ks.getD 0 [])
  let s9 := (List.range 9).foldl (fun s i => aesRound s (ks.getD (i + 1) [])) s0
  aesFinalRound s9 (ks.getD 10 [])

/-- The closed enumeration of known handshake reply codes
(authsession.py, enum AuthReply), in declaration order. -/
inductive AuthReply where
  | keyAccepted
  | randMsgReceived
  | authOk
  | keyMismatch
  | keyAborted
deriving DecidableEq, Repr

/-- The 3-byte value of each AuthReply member. -/
def AuthReply.value : AuthReply → List Nat
  | .keyAccepted => [0x10, 0x01, 0x01]
  | .randMsgReceived => [0x10, 0x02, 0x01]
  | .authOk => [0x10, 0x03, 0x01]
  | .keyMismatch => [0x10, 0x03, 0x04]
  | .keyAborted => [0x10, 0x01, 0x02]

/-- Iteration order of the AuthReply enumeration, as used by
Session.report_status when scanning for a member with a given value. -/
def authReplies : List AuthReply :=
  [.keyAccepted, .randMsgReceived, .authOk, .keyMismatch, .keyAborted]

/-- What Session.report_status hands to the caller's callback: either a
matching AuthReply member, or (for a code matching no member) the
unknown-code Exception object carrying the raw code. -/
inductive AuthStatus where
  | reply (r : AuthReply)
  | unknownCode (code : List Nat)
deriving DecidableEq, Repr

/-- Session.report_status: linear scan of the AuthReply enumeration for a
member whose value equals the code; the fallback default is the
unknown-code Exception object. -/
def report_status (code : List Nat) : AuthStatus :=
  match (authReplies.filter (fun r => r.value == code)).head? with
  | some r => .reply r
  | none => .unknownCode code

/-- Defunctionalised value of the Python attribute next_handler: which bound
method (handle_init_reply, handle_secret_reply, handle_done) is stored. -/
inductive Handler where
  | initReply
  | secretReply
  | done
deriving DecidableEq, Repr

/-- The exceptions a step handler can raise inside Session.handle:
verify_reply mismatch, a pyaes failure in _send_enc_msg (key or block not
of the required length), or next_handler being None (a TypeError when
called). -/
inductive HandlerErr where
  | unexpectedReply (exp : AuthReply) (act : List Nat)
  | cryptoError
  | noHandler
deriving DecidableEq, Repr

/-- State of one authsession.Session run.  The fields key, reset and
next_handler are the Python attributes; notifying records whether the auth
characteristic subscription started by start_notify is live; sent records
every buffer passed to auth_char.send in order; reported records every
status passed to the caller's callback in order. -/
structure Session where
  key : List Nat
  reset : Bool
  next_handler : Option Handler
  notifying : Bool
  sent : List (List Nat)
  reported : List AuthStatus
deriving DecidableEq, Repr

/-- Session.__init__: stores the key and reset flag; no message sent yet,
no handler installed, not yet subscribed. -/
def Session.init (key : List Nat) (reset : Bool) : Session :=
  ⟨key, reset, none, false, [], []⟩

/-- Session._req_secret: send the secret-request message [2, 0]. -/
def Session.req_secret (s : Session) : Session :=
  {s with sent := s.sent ++ [[2, 0]]}

/-- Session._send_key: send [1, 0] followed by the raw key bytes. -/
def Session.send_key (s : Session) : Session :=
  {s with sent := s.sent ++ [[1, 0] ++ s.key]}

/-- Session._send_enc_msg: AES-ECB-encrypt the challenge body under the key
and send [3, 0] followed by the ciphertext.  pyaes raises before anything
is sent when the key is not a valid AES key (16 bytes for this device) or
the block is not exactly 16 bytes. -/
def Session.send_enc_msg (s : Session) (msg : List Nat) : Except HandlerErr Session :=
  if s.key.length = 16 ∧ msg.length = 16 then
    .ok {s with sent := s.sent ++ [[3, 0] ++ aes128EncryptBlock s.key msg]}
  else
    .error .cryptoError

/-- Session.verify_reply: raise unless the actual code equals the expected
reply code's value. -/
def verify_reply (exp : AuthReply) (act : List Nat) : Except HandlerErr Unit :=
  if exp.value = act then .ok () else .error (.unexpectedReply exp act)

/-- Session.start: subscribe the handle callback on the auth
characteristic, then in reset mode send the key and await the init reply,
otherwise request the secret and await the secret reply. -/
def Session.start (s : Session) : Session :=
  let s := {s with notifying := true}
  if s.reset then
    {s.send_key with next_handler := some .initReply}
  else
    {s.req_secret with next_handler := some .secretReply}

/-- Session.stop: tear down the notification subscription and clear the
handler. -/
def Session.stop (s : Session) : Session :=
  {s with notifying := false, next_handler := none}

/-- Session.parse_msg: first three bytes are the code, the rest the body
(Python slicing, total also on inputs shorter than 3 bytes). -/
def Session.parse_msg (msg : List Nat) : List Nat × List Nat :=
  (msg.take 3, msg.drop 3)

/-- Session.handle_init_reply: expect key-accepted, then request the secret
and install handle_secret_reply; returns None, i.e. not done. -/
def Session.handle_init_reply (s : Session) (code _body : List Nat) :
    Except HandlerErr (Session × Bool) :=
  match verify_reply .keyAccepted code with
  | .error e => .error e
  | .ok _ => .ok ({s.req_secret with next_handler := some .secretReply}, false)

/-- Session.handle_secret_reply: expect challenge-issued, then send the
encrypted reply and install handle_done; returns None, i.e. not done. -/
def Session.handle_secret_reply (s : Session) (code body : List Nat) :
    Except HandlerErr (Session × Bool) :=
  match verify_reply .randMsgReceived code with
  | .error e => .error e
  | .ok _ =>
    match s.send_enc_msg body with
    | .error e => .error e
    | .ok s2 => .ok ({s2 with next_handler := some .done}, false)

/-- Session.handle_done: expect auth-ok and return True, i.e. done. -/
def Session.handle_done (s : Session) (code _body : List Nat) :
    Except HandlerErr (Session × Bool) :=
  match verify_reply .authOk code with
  | .error e => .error e
  | .ok _ => .ok (s, true)

/-- Dispatch of the stored next_handler on the parsed code and body; a None
handler raises (TypeError) when invoked. -/
def Session.runHandler (s : Session) (code body : List Nat) :
    Except HandlerErr (Session × Bool) :=
  match s.next_handler with
  | none => .error .noHandler
  | some .initReply => s.handle_init_reply code body
  | some .secretReply => s.handle_secret_reply code body
  | some .done => s.handle_done code body

/-- Session.handle, the notification callback: parse the message, run the
current handler catching every exception (an exception counts as done);
when done, stop notifications and report the status for the received
code through the callback. -/
def Session.handle (s : Session) (msg : List Nat) : Session :=
  let code := (Session.parse_msg msg).1
  let body := (Session.parse_msg msg).2
  match s.runHandler code body with
  | .ok (s2, false) => s2
  | .ok (s2, true) =>
    let s3 := s2.stop
    {s3 with reported := s3.reported ++ [report_status code]}
  | .error _ =>
    let s3 := s.stop
    {s3 with reported := s3.reported ++ [report_status code]}

/-- A complete session run: construct, start, then deliver the given reply
notifications in order. -/
def Session.run (key : List Nat) (reset : Bool) (replies : List (List Nat)) : Session :=
  replies.foldl Session.handle ((Session.init key reset).start)

/-- A Python datetime value as a tuple of its stored fields.  Python
datetime has no stored weekday; the weekday is derived from the date.  The
seventh positional constructor argument is microsecond. -/
structure PyDatetime where
  year : Nat
  month : Nat
  day : Nat
  hour : Nat
  minute : Nat
  second : Nat
  microsecond : Nat
deriving DecidableEq, Repr

/-- Gregorian leap-year test, as in Python's calendar arithmetic. -/
def isLeapYear (y : Nat) : Bool :=
  y % 4 == 0 && (y % 100 != 0 || y % 400 == 0)

/-- Length of a month, as validated by the Python datetime constructor. -/
def daysInMonth (y m : Nat) : Nat :=
  if m = 2 then (if isLeapYear y then 29 else 28)
  else if m = 4 ∨ m = 6 ∨ m = 9 ∨ m = 11 then 30
  else 31

/-- The range checks performed by the Python datetime constructor. -/
abbrev PyDatetime.Valid (dt : PyDatetime) : Prop :=
  1 ≤ dt.year ∧ dt.year ≤ 9999 ∧ 1 ≤ dt.month ∧ dt.month ≤ 12 ∧
    1 ≤ dt.day ∧ dt.day ≤ daysInMonth dt.year dt.month ∧
    dt.hour ≤ 23 ∧ dt.minute ≤ 59 ∧ dt.second ≤ 59 ∧ dt.microsecond ≤ 999999

/-- datetime(y, mo, d, h, mi, s, us) as called on unpacked struct values:
validates every field and builds the value, or raises (None). -/
def mkDatetime (y mo d h mi s us : Int) : Option PyDatetime :=
  if 1 ≤ y ∧ y ≤ 9999 ∧ 1 ≤ mo ∧ mo ≤ 12 ∧
      1 ≤ d ∧ d ≤ (daysInMonth y.toNat mo.toNat : Int) ∧
      0 ≤ h ∧ h ≤ 23 ∧ 0 ≤ mi ∧ mi ≤ 59 ∧ 0 ≤ s ∧ s ≤ 59 ∧
      0 ≤ us ∧ us ≤ 999999 then
    some ⟨y.toNat, mo.toNat, d.toNat, h.toNat, mi.toNat, s.toNat, us.toNat⟩
  else
    none

/-- Days in all years strictly before year y (proleptic Gregorian), as in
Python's date.toordinal arithmetic. -/
def daysBeforeYear (y : Nat) : Nat :=
  (y - 1) * 365 + (y - 1) / 4 - (y - 1) / 100 + (y - 1) / 400

/-- Days in the months of year y strictly before month m. -/
def daysBeforeMonth (y m : Nat) : Nat :=
  (((List.range (m - 1)).map (fun i => daysInMonth y (i + 1))).sum)

/-- Python date.toordinal: day count with ordinal 1 = January 1 of year 1. -/
def toOrdinal (y m d : Nat) : Nat := daysBeforeYear y + daysBeforeMonth y m + d

/-- Python date.weekday: 0 = Monday. -/
def pyWeekday (y m d : Nat) : Nat := (toOrdinal y m d + 6) % 7

/-- Signed interpretation of one byte (struct format b). -/
def sbyte (b : Nat) : Int := if b < 128 then (b : Int) else (b : Int) - 256

/-- Signed little-endian interpretation of two bytes (struct format h on a
little-endian host). -/
def s16le (lo hi : Nat) : Int :=
  if lo + 256 * hi < 32768 then ((lo + 256 * hi : Nat) : Int)
  else ((lo + 256 * hi : Nat) : Int) - 65536

/-- band2._pack_datetime: struct.pack of format hbbbbbbxxx (little-endian
host) applied to year, month, day, hour, minute, second and the derived
weekday; pad bytes are zero and the frame is 11 bytes.  struct.pack raises
(None) when a value exceeds its field range; datetime fields are never
negative, so only the upper bounds are live. -/
def _pack_datetime (dt : PyDatetime) : Option (List Nat) :=
  let wd := pyWeekday dt.year dt.month dt.day
  if dt.year ≤ 32767 ∧ dt.month ≤ 127 ∧ dt.day ≤ 127 ∧ dt.hour ≤ 127 ∧
      dt.minute ≤ 127 ∧ dt.second ≤ 127 ∧ wd ≤ 127 then
    some [dt.year % 256, dt.year / 256, dt.month, dt.day, dt.hour, dt.minute,
      dt.second, wd, 0, 0, 0]
  else
    none

/-- band2._unpack_datetime: struct.unpack of format hbbbbbbxxx (requires
exactly 11 bytes), then datetime(*data) — the seven unpacked values are
passed positionally, so the packed weekday byte lands in the microsecond
argument of the datetime constructor. -/
def _unpack_datetime (raw : List Nat) : Option PyDatetime :=
  if raw.length = 11 then
    mkDatetime (s16le (raw.getD 0 0) (raw.getD 1 0)) (sbyte (raw.getD 2 0))
      (sbyte (raw.getD 3 0)) (sbyte (raw.getD 4 0)) (sbyte (raw.getD 5 0))
      (sbyte (raw.getD 6 0)) (sbyte (raw.getD 7 0))
  else
    none

/-- Battery status as reported by Band2.get_battery. -/
inductive BatteryStatus where
  | normal
  | charging
deriving DecidableEq, Repr

/-- The dictionary returned by Band2.get_battery. -/
structure BatteryInfo where
  level : Nat
  status : BatteryStatus
  last_off : PyDatetime
  last_charge : PyDatetime
deriving DecidableEq, Repr

/-- The decoding half of Band2.get_battery: level is byte 1, status is
charging iff byte 2 is nonzero, and the two timestamps come from
struct.unpack of format hbbxxx on the 7-byte slices [3:10) and [11:18) —
year, month and day only, three pad bytes ignored — fed to datetime(y, mo,
d).  A buffer shorter than 18 bytes makes a slice of the wrong size and
struct.unpack raises (None). -/
def get_battery_decode (data : List Nat) : Option BatteryInfo :=
  if 18 ≤ data.length then
    match mkDatetime (s16le (data.getD 3 0) (data.getD 4 0)) (sbyte (data.getD 5 0))
        (sbyte (data.getD 6 0)) 0 0 0 0,
      mkDatetime (s16le (data.getD 11 0) (data.getD 12 0)) (sbyte (data.getD 13 0))
        (sbyte (data.getD 14 0)) 0 0 0 0 with
    | some off, some chg =>
      some ⟨data.getD 1 0, if data.getD 2 0 = 0 then .normal else .charging, off, chg⟩
    | _, _ => none
  else
    none

/-- band2._days_to_bitmask: fold of bitwise or of 1 shifted by each day. -/
def _days_to_bitmask (days : List Nat) : Nat :=
  days.foldl (fun mask d => mask ||| (1 <<< d)) 0

/-! Helper lemmas. -/

theorem expandRound_length (rc : Nat) (k : List Nat) : (expandRound rc k).length = 16 := rfl

theorem expandFrom_getD_length (rcs : List Nat) (k : List Nat) (i : Nat)
    (h : i < rcs.length) : ((expandFrom k rcs).getD i []).length = 16 := by
  induction rcs generalizing k i with
  | nil => simp at h
  | cons rc rcs ih =>
    cases i with
    | zero => simp [expandFrom, expandRound_length]
    | succ i =>
      simp only [expandFrom, List.getD_cons_succ]
      exact ih _ _ (by simpa using h)

theorem shiftRows_length (s : List Nat) : (shiftRows s).length = 16 := rfl

/-- The output of the embedded AES-128 block encryption always has exactly
16 bytes. -/
theorem aes128EncryptBlock_length (key pt : List Nat) :
    (aes128EncryptBlock key pt).length = 16 := by
  have h10 : ((roundKeys key).getD 10 []).length = 16 := by
    have : (roundKeys key).getD 10 [] = (expandFrom key rcons).getD 9 [] := by
      simp [roundKeys]
    rw [this]
    exact expandFrom_getD_length rcons key 9 (by decide)
  unfold aes128EncryptBlock aesFinalRound addRoundKey
  rw [List.length_zipWith, shiftRows_length, h10]
  rfl

theorem send_enc_msg_ok (s : Session) (msg : List Nat) (hk : s.key.length = 16)
    (hm : msg.length = 16) :
    s.send_enc_msg msg =
      .ok {s with sent := s.sent ++ [[3, 0] ++ aes128EncryptBlock s.key msg]} := by
  unfold Session.send_enc_msg
  rw [if_pos ⟨hk, hm⟩]

theorem parse_msg_challenge (C : List Nat) :
    Session.parse_msg ([0x10, 0x02, 0x01] ++ C) = ([0x10, 0x02, 0x01], C) := rfl

/-- Delivering a challenge-issued reply with a 16-byte body to a session
awaiting the challenge sends the encrypted reply and moves to awaiting the
auth result. -/
theorem handle_secret_ok (s : Session) (C : List Nat) (h : s.next_handler = some .secretReply)
    (hk : s.key.length = 16) (hC : C.length = 16) :
    s.handle ([0x10, 0x02, 0x01] ++ C) =
      {s with sent := s.sent ++ [[3, 0] ++ aes128EncryptBlock s.key C],
              next_handler := some .done} := by
  simp only [Session.handle, parse_msg_challenge, Session.runHandler, h,
    Session.handle_secret_reply, verify_reply, AuthReply.value,
    send_enc_msg_ok s C hk hC, reduceIte]

/-- Delivering a key-accepted reply to a session awaiting it sends the
secret request and moves to awaiting the challenge. -/
theorem handle_init_ok (s : Session) (body : List Nat)
    (h : s.next_handler = some .initReply) :
    s.handle ([0x10, 0x01, 0x01] ++ body) =
      {s with sent := s.sent ++ [[2, 0]], next_handler := some .secretReply} := by
  simp only [Session.handle, Session.parse_msg, Session.runHandler, h,
    Session.handle_init_reply, Session.req_secret, verify_reply, AuthReply.value,
    reduceIte]
  rfl

theorem report_status_auth_ok : report_status [0x10, 0x03, 0x01] = .reply .authOk := rfl

/-- Delivering an auth-ok reply to a session awaiting the auth result stops
notifications and reports the auth-ok status. -/
theorem handle_done_ok (s : Session) (h : s.next_handler = some .done) :
    s.handle [0x10, 0x03, 0x01] =
      {s with notifying := false, next_handler := none,
              reported := s.reported ++ [.reply .authOk]} := by
  simp only [Session.handle, Session.parse_msg, Session.runHandler, h,
    Session.handle_done, Session.stop, verify_reply, AuthReply.value, reduceIte,
    report_status_auth_ok]
  rfl

theorem verify_reply_ne (exp : AuthReply) (act : List Nat) (h : exp.value ≠ act) :
    verify_reply exp act = .error (.unexpectedReply exp act) := by
  unfold verify_reply
  rw [if_neg h]

/-- When the handler dispatch raises, Session.handle stops notifications
and reports the status for the received code, leaving everything else as
it was. -/
theorem handle_of_error (s : Session) (msg : List Nat) (e : HandlerErr)
    (h : s.runHandler (msg.take 3) (msg.drop 3) = .error e) :
    s.handle msg =
      {s with notifying := false, next_handler := none,
              reported := s.reported ++ [report_status (msg.take 3)]} := by
  simp only [Session.handle, Session.parse_msg, h, Session.stop]

/-- A code that is the value of no AuthReply member makes report_status
fall through to the unknown-code default. -/
theorem report_status_not_mem (code : List Nat)
    (h : ∀ r : AuthReply, r.value ≠ code) : report_status code = .unknownCode code := by
  have hf : authReplies.filter (fun r => r.value == code) = [] := by
    rw [List.filter_eq_nil_iff]
    intro r _
    simpa using h r
  unfold report_status
  rw [hf]
  rfl

/-- Every handler raises an unexpected-reply error on a code that matches
no known reply value; a missing handler raises as well. -/
theorem runHandler_error_of_unknown (s : Session) (code body : List Nat)
    (h : ∀ r : AuthReply, r.value ≠ code) :
    ∃ e : HandlerErr, s.runHandler code body = .error e := by
  unfold Session.runHandler
  match hh : s.next_handler with
  | none => exact ⟨.noHandler, rfl⟩
  | some .initReply =>
    exact ⟨.unexpectedReply .keyAccepted code,
      by simp [Session.handle_init_reply, verify_reply_ne _ _ (h .keyAccepted)]⟩
  | some .secretReply =>
    exact ⟨.unexpectedReply .randMsgReceived code,
      by simp [Session.handle_secret_reply, verify_reply_ne _ _ (h .randMsgReceived)]⟩
  | some .done =>
    exact ⟨.unexpectedReply .authOk code,
      by simp [Session.handle_done, verify_reply_ne _ _ (h .authOk)]⟩

/-! Claim theorems. -/

/-- C1: for every 16-byte pairing key with reset disabled and every
16-byte challenge C, running the handshake against the replies
[challenge-issued with body C, auth-ok] sends exactly two messages in
order — the secret-request [2, 0] and the encrypted reply [3, 0] followed
by the 16-byte AES-ECB encryption of C under the key — and the session
terminates (handler cleared, notifications stopped) reporting AuthOk. -/
theorem auth_run_no_reset (key C : List Nat) (hk : key.length = 16) (hC : C.length = 16) :
    Session.run key false [[0x10, 0x02, 0x01] ++ C, [0x10, 0x03, 0x01]] =
      { key := key, reset := false, next_handler := none, notifying := false,
        sent := [[2, 0], [3, 0] ++ aes128EncryptBlock key C],
        reported := [.reply .authOk] } ∧
    (aes128EncryptBlock key C).length = 16 := by
  refine ⟨?_, aes128EncryptBlock_length key C⟩
  have h0 : (Session.init key false).start =
      ⟨key, false, some .secretReply, true, [[2, 0]], []⟩ := rfl
  simp only [Session.run, List.foldl, h0]
  rw [handle_secret_ok _ C rfl hk hC, handle_done_ok _ rfl]
  rfl

theorem auth_run_no_reset_witness :
    (List.range 16).length = 16 ∧ (List.replicate 16 7).length = 16 ∧
    (Session.run (List.range 16) false
        [[0x10, 0x02, 0x01] ++ List.replicate 16 7, [0x10, 0x03, 0x01]] =
      { key := List.range 16, reset := false, next_handler := none, notifying := false,
        sent := [[2, 0], [3, 0] ++ aes128EncryptBlock (List.range 16) (List.replicate 16 7)],
        reported := [.reply .authOk] } ∧
      (aes128EncryptBlock (List.range 16) (List.replicate 16 7)).length = 16) :=
  ⟨by decide, by decide, auth_run_no_reset (List.range 16) (List.replicate 16 7)
    (by decide) (by decide)⟩

/-- C2: for every 16-byte pairing key with reset enabled and every 16-byte
challenge C, running the handshake against the replies [key-accepted,
challenge-issued with body C, auth-ok] sends exactly three messages in
order — the key message [1, 0] followed by the 16 raw key bytes, the
secret-request [2, 0], and the encrypted reply [3, 0] followed by the
ciphertext — and the session terminates reporting AuthOk. -/
theorem auth_run_reset (key C : List Nat) (hk : key.length = 16) (hC : C.length = 16) :
    Session.run key true
        [[0x10, 0x01, 0x01], [0x10, 0x02, 0x01] ++ C, [0x10, 0x03, 0x01]] =
      { key := key, reset := true, next_handler := none, notifying := false,
        sent := [[1, 0] ++ key, [2, 0], [3, 0] ++ aes128EncryptBlock key C],
        reported := [.reply .authOk] } := by
  have h0 : (Session.init key true).start =
      ⟨key, true, some .initReply, true, [[1, 0] ++ key], []⟩ := rfl
  have h1 : ([0x10, 0x01, 0x01] : List Nat) = [0x10, 0x01, 0x01] ++ [] := rfl
  simp only [Session.run, List.foldl, h0]
  rw [h1, handle_init_ok _ [] rfl]
  rw [handle_secret_ok _ C rfl hk hC, handle_done_ok _ rfl]
  rfl

theorem auth_run_reset_witness :
    (List.range 16).length = 16 ∧ (List.replicate 16 7).length = 16 ∧
    Session.run (List.range 16) true
        [[0x10, 0x01, 0x01], [0x10, 0x02, 0x01] ++ List.replicate 16 7, [0x10, 0x03, 0x01]] =
      { key := List.range 16, reset := true, next_handler := none, notifying := false,
        sent := [[1, 0] ++ List.range 16, [2, 0],
          [3, 0] ++ aes128EncryptBlock (List.range 16) (List.replicate 16 7)],
        reported := [.reply .authOk] } :=
  ⟨by decide, by decide, auth_run_reset (List.range 16) (List.replicate 16 7)
    (by decide) (by decide)⟩

/-- C4: a reply carrying the key-mismatch code 10 03 04 delivered to a
session awaiting the challenge sends no further message; the session stops
notifications, clears the handler and reports the KeyMismatch status. -/
theorem key_mismatch_terminates (s : Session) (body : List Nat)
    (h : s.next_handler = some .secretReply) :
    s.handle ([0x10, 0x03, 0x04] ++ body) =
      {s with notifying := false, next_handler := none,
              reported := s.reported ++ [.reply .keyMismatch]} := by
  have he : s.runHandler (([0x10, 0x03, 0x04] ++ body).take 3)
      (([0x10, 0x03, 0x04] ++ body).drop 3) =
      .error (.unexpectedReply .randMsgReceived [0x10, 0x03, 0x04]) := by
    show s.runHandler [0x10, 0x03, 0x04] body = _
    simp [Session.runHandler, h, Session.handle_secret_reply,
      verify_reply_ne .randMsgReceived [0x10, 0x03, 0x04] (by decide)]
  rw [handle_of_error s _ _ he]
  rfl

theorem key_mismatch_terminates_witness :
    ((Session.init (List.range 16) false).start.next_handler = some .secretReply) ∧
    (Session.init (List.range 16) false).start.handle ([0x10, 0x03, 0x04] ++ []) =
      { (Session.init (List.range 16) false).start with
        notifying := false, next_handler := none,
        reported := (Session.init (List.range 16) false).start.reported ++
          [.reply .keyMismatch] } :=
  ⟨rfl, key_mismatch_terminates _ [] rfl⟩

/-- C5: a reply whose 3-byte prefix is none of the five known codes makes
the session, in any state with an installed handler, stop notifications,
clear the handler, send nothing further, and report the unknown-code
status carrying that prefix. -/
theorem unknown_code_terminates (s : Session) (h : Handler) (code body : List Nat)
    (_hh : s.next_handler = some h) (hlen : code.length = 3)
    (hunk : code ∉ authReplies.map AuthReply.value) :
    s.handle (code ++ body) =
      {s with notifying := false, next_handler := none,
              reported := s.reported ++ [.unknownCode code]} := by
  have hne : ∀ r : AuthReply, r.value ≠ code := by
    intro r hr
    exact hunk (hr ▸ List.mem_map_of_mem AuthReply.value (by cases r <;> decide))
  obtain ⟨e, he⟩ := runHandler_error_of_unknown s code body hne
  have htake : (code ++ body).take 3 = code := by
    rw [← hlen]
    exact List.take_left code body
  have hdrop : (code ++ body).drop 3 = body := by
    rw [← hlen]
    exact List.drop_left code body
  have he2 : s.runHandler ((code ++ body).take 3) ((code ++ body).drop 3) = .error e := by
    rw [htake, hdrop]
    exact he
  rw [handle_of_error s _ e he2, htake, report_status_not_mem code hne]

theorem unknown_code_terminates_witness :
    ((Session.init (List.range 16) false).start.next_handler = some .secretReply) ∧
    ([0x20, 0x05, 0x09] : List Nat).length = 3 ∧
    ([0x20, 0x05, 0x09] : List Nat) ∉ authReplies.map AuthReply.value ∧
    (Session.init (List.range 16) false).start.handle ([0x20, 0x05, 0x09] ++ [1, 2]) =
      { (Session.init (List.range 16) false).start with
        notifying := false, next_handler := none,
        reported := (Session.init (List.range 16) false).start.reported ++
          [.unknownCode [0x20, 0x05, 0x09]] } :=
  ⟨rfl, rfl, by decide,
    unknown_code_terminates _ .secretReply [0x20, 0x05, 0x09] [1, 2] rfl rfl (by decide)⟩

/-- C6 counterexample: parse_msg does not fail on a reply shorter than 3
bytes; it silently returns the short prefix as the code with an empty
body. -/
theorem parse_msg_short_returns_pair :
    Session.parse_msg [0x10, 0x01] = ([0x10, 0x01], []) := rfl

/-- C6 amended: a reply shorter than 3 bytes is not a distinct
malformed-message error; parse_msg returns the whole reply as the code,
the handler's verification then fails, and the session stops and reports
the unknown-code status carrying the short prefix. -/
theorem short_reply_reported_unknown (s : Session) (h : Handler) (msg : List Nat)
    (_hh : s.next_handler = some h) (hlen : msg.length < 3) :
    s.handle msg =
      {s with notifying := false, next_handler := none,
              reported := s.reported ++ [.unknownCode msg]} := by
  have hne : ∀ r : AuthReply, r.value ≠ msg := by
    intro r hr
    have h3 : (AuthReply.value r).length = 3 := by cases r <;> rfl
    rw [hr] at h3
    omega
  have htake : msg.take 3 = msg := List.take_of_length_le (by omega)
  have hdrop : msg.drop 3 = [] := List.drop_eq_nil_of_le (by omega)
  obtain ⟨e, he⟩ := runHandler_error_of_unknown s msg [] hne
  have he2 : s.runHandler (msg.take 3) (msg.drop 3) = .error e := by
    rw [htake, hdrop]
    exact he
  rw [handle_of_error s msg e he2, htake, report_status_not_mem msg hne]

theorem short_reply_reported_unknown_witness :
    ((Session.init (List.range 16) false).start.next_handler = some .secretReply) ∧
    ([0x10] : List Nat).length < 3 ∧
    (Session.init (List.range 16) false).start.handle [0x10] =
      { (Session.init (List.range 16) false).start with
        notifying := false, next_handler := none,
        reported := (Session.init (List.range 16) false).start.reported ++
          [.unknownCode [0x10]] } :=
  ⟨rfl, by decide, short_reply_reported_unknown _ .secretReply [0x10] rfl (by decide)⟩

/-- C10: whenever the dispatched step handler raises (unexpected code,
missing handler, crypto failure), Session.handle catches the exception,
stops notifications, clears the handler, sends nothing, and reports a
status for the received code through the callback. -/
theorem handler_exception_caught (s : Session) (msg : List Nat) (e : HandlerErr)
    (h : s.runHandler (msg.take 3) (msg.drop 3) = .error e) :
    (s.handle msg).notifying = false ∧ (s.handle msg).next_handler = none ∧
    (s.handle msg).sent = s.sent ∧
    (s.handle msg).reported = s.reported ++ [report_status (msg.take 3)] := by
  rw [handle_of_error s msg e h]
  exact ⟨rfl, rfl, rfl, rfl⟩

theorem handler_exception_caught_witness :
    ((Session.init [] false).runHandler (([1, 2, 3, 4] : List Nat).take 3)
        (([1, 2, 3, 4] : List Nat).drop 3) = .error .noHandler) ∧
    (((Session.init [] false).handle [1, 2, 3, 4]).notifying = false ∧
      ((Session.init [] false).handle [1, 2, 3, 4]).next_handler = none ∧
      ((Session.init [] false).handle [1, 2, 3, 4]).sent = (Session.init [] false).sent ∧
      ((Session.init [] false).handle [1, 2, 3, 4]).reported =
        (Session.init [] false).reported ++ [report_status (([1, 2, 3, 4] : List Nat).take 3)]) :=
  ⟨rfl, handler_exception_caught (Session.init [] false) [1, 2, 3, 4] .noHandler rfl⟩

theorem days_foldl_init (l : List Nat) (a : Nat) :
    l.foldl (fun mask d => mask ||| (1 <<< d)) a = a ||| _days_to_bitmask l := by
  induction l generalizing a with
  | nil => simp [_days_to_bitmask]
  | cons d l ih =>
    simp only [_days_to_bitmask, List.foldl] at ih ⊢
    rw [ih (a ||| 1 <<< d), ih (0 ||| 1 <<< d), Nat.zero_or, Nat.or_assoc]

theorem days_to_bitmask_cons (d : Nat) (l : List Nat) :
    _days_to_bitmask (d :: l) = (1 <<< d) ||| _days_to_bitmask l := by
  show List.foldl _ (0 ||| 1 <<< d) l = _
  rw [days_foldl_init, Nat.zero_or]

/-- C9: the days bitmask has bit i set iff day i occurs in the input, is
invariant under reordering of the input, maps the empty collection to 0,
and is compositional: the mask of a concatenation is the bitwise or of the
masks, hence the mask of any collection is the or of its singleton
masks. -/
theorem days_to_bitmask_spec :
    (∀ l₁ l₂ : List Nat, l₁.Perm l₂ → _days_to_bitmask l₁ = _days_to_bitmask l₂) ∧
    (∀ (l : List Nat) (i : Nat), (_days_to_bitmask l).testBit i = true ↔ i ∈ l) ∧
    _days_to_bitmask [] = 0 ∧
    (∀ l₁ l₂ : List Nat,
      _days_to_bitmask (l₁ ++ l₂) = _days_to_bitmask l₁ ||| _days_to_bitmask l₂) := by
  refine ⟨?_, ?_, rfl, ?_⟩
  · intro l₁ l₂ h
    induction h with
    | nil => rfl
    | cons x _ ih => rw [days_to_bitmask_cons, days_to_bitmask_cons, ih]
    | swap x y l =>
      rw [days_to_bitmask_cons, days_to_bitmask_cons, days_to_bitmask_cons,
        days_to_bitmask_cons, ← Nat.or_assoc, ← Nat.or_assoc,
        Nat.or_comm (1 <<< y) (1 <<< x)]
    | trans _ _ ih1 ih2 => rw [ih1, ih2]
  · intro l i
    induction l with
    | nil => simp [_days_to_bitmask]
    | cons d l ih =>
      rw [days_to_bitmask_cons, Nat.testBit_or, Nat.one_shiftLeft, Nat.testBit_two_pow]
      simp only [Bool.or_eq_true, decide_eq_true_eq, ih, List.mem_cons]
      exact or_congr_left eq_comm
  · intro l₁ l₂
    induction l₁ with
    | nil => simp [_days_to_bitmask]
    | cons d l ih =>
      rw [List.cons_append, days_to_bitmask_cons, days_to_bitmask_cons, ih, Nat.or_assoc]

theorem days_to_bitmask_spec_witness :
    ([0, 2] : List Nat).Perm [2, 0] ∧ _days_to_bitmask [0, 2] = _days_to_bitmask [2, 0] :=
  ⟨by decide, days_to_bitmask_spec.1 [0, 2] [2, 0] (by decide)⟩

theorem daysInMonth_le (y m : Nat) : daysInMonth y m ≤ 31 := by
  unfold daysInMonth
  split
  · split <;> omega
  · split <;> omega

theorem pyWeekday_lt (y m d : Nat) : pyWeekday y m d < 7 := Nat.mod_lt _ (by decide)

/-- For a valid datetime, the struct.pack range checks pass and
_pack_datetime yields the 11-byte frame. -/
theorem pack_datetime_eq (dt : PyDatetime) (h : dt.Valid) :
    _pack_datetime dt =
      some [dt.year % 256, dt.year / 256, dt.month, dt.day, dt.hour, dt.minute,
        dt.second, pyWeekday dt.year dt.month dt.day, 0, 0, 0] := by
  obtain ⟨h1, h2, h3, h4, h5, h6, h7, h8, h9, h10⟩ := h
  have hwd := pyWeekday_lt dt.year dt.month dt.day
  have hdm := daysInMonth_le dt.year dt.month
  unfold _pack_datetime
  rw [if_pos]
  exact ⟨by omega, by omega, by omega, by omega, by omega, by omega, by omega⟩

theorem sbyte_eq (b : Nat) (h : b < 128) : sbyte b = (b : Int) := by
  unfold sbyte
  rw [if_pos h]

theorem s16le_eq (lo hi : Nat) (h : lo + 256 * hi < 32768) :
    s16le lo hi = ((lo + 256 * hi : Nat) : Int) := by
  unfold s16le
  rw [if_pos h]

theorem mkDatetime_natCast (y mo d h mi s us : Nat) (h1 : 1 ≤ y) (h2 : y ≤ 9999)
    (h3 : 1 ≤ mo) (h4 : mo ≤ 12) (h5 : 1 ≤ d) (h6 : d ≤ daysInMonth y mo)
    (h7 : h ≤ 23) (h8 : mi ≤ 59) (h9 : s ≤ 59) (h10 : us ≤ 999999) :
    mkDatetime y mo d h mi s us = some ⟨y, mo, d, h, mi, s, us⟩ := by
  unfold mkDatetime
  rw [if_pos]
  · simp
  · simp only [Int.toNat_ofNat]
    omega

theorem mkDatetime_date (y mo d : Nat) (h1 : 1 ≤ y) (h2 : y ≤ 9999)
    (h3 : 1 ≤ mo) (h4 : mo ≤ 12) (h5 : 1 ≤ d) (h6 : d ≤ daysInMonth y mo) :
    mkDatetime y mo d 0 0 0 0 = some ⟨y, mo, d, 0, 0, 0, 0⟩ := by
  unfold mkDatetime
  rw [if_pos]
  · simp
  · simp only [Int.toNat_ofNat]
    omega

/-- C3 counterexample: the valid datetime 2024-01-02 00:00:00.000000 does
not survive the pack/unpack round trip — the derived weekday byte (a
Tuesday, 1) is fed back as the microsecond constructor argument, so the
decoded value is 2024-01-02 00:00:00.000001. -/
theorem datetime_roundtrip_cex :
    PyDatetime.Valid ⟨2024, 1, 2, 0, 0, 0, 0⟩ ∧
    (_pack_datetime ⟨2024, 1, 2, 0, 0, 0, 0⟩).bind _unpack_datetime =
      some ⟨2024, 1, 2, 0, 0, 0, 1⟩ ∧
    (_pack_datetime ⟨2024, 1, 2, 0, 0, 0, 0⟩).bind _unpack_datetime ≠
      some ⟨2024, 1, 2, 0, 0, 0, 0⟩ := by decide

/-- C3 amended: the pack/unpack round trip preserves year, month, day,
hour, minute and second of every valid datetime, and returns the value
unchanged exactly when its microsecond field already equals the weekday of
its date (Monday = 0), because the packed weekday byte is unpacked into
the microsecond constructor argument. -/
theorem datetime_roundtrip_weekday (dt : PyDatetime) (h : dt.Valid)
    (hw : dt.microsecond = pyWeekday dt.year dt.month dt.day) :
    (_pack_datetime dt).bind _unpack_datetime = some dt := by
  have hp := pack_datetime_eq dt h
  obtain ⟨h1, h2, h3, h4, h5, h6, h7, h8, h9, h10⟩ := h
  have hwd := pyWeekday_lt dt.year dt.month dt.day
  have hdm := daysInMonth_le dt.year dt.month
  rw [hp]
  show mkDatetime (s16le (dt.year % 256) (dt.year / 256)) (sbyte dt.month)
    (sbyte dt.day) (sbyte dt.hour) (sbyte dt.minute) (sbyte dt.second)
    (sbyte (pyWeekday dt.year dt.month dt.day)) = some dt
  rw [s16le_eq _ _ (by omega), Nat.mod_add_div, sbyte_eq dt.month (by omega),
    sbyte_eq dt.day (by omega), sbyte_eq dt.hour (by omega),
    sbyte_eq dt.minute (by omega), sbyte_eq dt.second (by omega),
    sbyte_eq _ (by omega)]
  rw [mkDatetime_natCast dt.year dt.month dt.day dt.hour dt.minute dt.second
    (pyWeekday dt.year dt.month dt.day) h1 h2 h3 h4 h5 h6 h7 h8 h9 (by omega)]
  rw [← hw]

theorem datetime_roundtrip_weekday_witness :
    PyDatetime.Valid ⟨2024, 1, 2, 0, 0, 0, 1⟩ ∧
    (⟨2024, 1, 2, 0, 0, 0, 1⟩ : PyDatetime).microsecond = pyWeekday 2024 1 2 ∧
    (_pack_datetime ⟨2024, 1, 2, 0, 0, 0, 1⟩).bind _unpack_datetime =
      some ⟨2024, 1, 2, 0, 0, 0, 1⟩ :=
  ⟨by decide, by decide,
    datetime_roundtrip_weekday ⟨2024, 1, 2, 0, 0, 0, 1⟩ (by decide) (by decide)⟩

/-- C8 counterexample: the frame produced by _pack_datetime for the valid
datetime 2024-01-02 has 11 bytes, not the claimed fixed total of 10: the
layout packs six single-byte fields after the year, not five. -/
theorem pack_datetime_frame_cex :
    PyDatetime.Valid ⟨2024, 1, 2, 0, 0, 0, 0⟩ ∧
    (_pack_datetime ⟨2024, 1, 2, 0, 0, 0, 0⟩).map List.length = some 11 ∧
    (_pack_datetime ⟨2024, 1, 2, 0, 0, 0, 0⟩).map List.length ≠ some 10 := by decide

/-- C8 amended: for every valid datetime, _pack_datetime produces the
little-endian signed 16-bit year, then six single-byte fields (month, day,
hour, minute, second, derived weekday), padded with 3 reserved zero bytes
to a fixed total frame length of 11 bytes. -/
theorem pack_datetime_layout (dt : PyDatetime) (h : dt.Valid) :
    _pack_datetime dt =
      some ([dt.year % 256, dt.year / 256] ++
        [dt.month, dt.day, dt.hour, dt.minute, dt.second,
          pyWeekday dt.year dt.month dt.day] ++ [0, 0, 0]) ∧
    ∀ l, _pack_datetime dt = some l → l.length = 11 := by
  refine ⟨pack_datetime_eq dt h, fun l hl => ?_⟩
  rw [pack_datetime_eq dt h] at hl
  cases hl
  rfl

theorem pack_datetime_layout_witness :
    PyDatetime.Valid ⟨2024, 1, 2, 0, 0, 0, 0⟩ ∧
    (_pack_datetime ⟨2024, 1, 2, 0, 0, 0, 0⟩ =
      some ([2024 % 256, 2024 / 256] ++ [1, 2, 0, 0, 0, pyWeekday 2024 1 2] ++ [0, 0, 0]) ∧
    ∀ l, _pack_datetime ⟨2024, 1, 2, 0, 0, 0, 0⟩ = some l → l.length = 11) :=
  ⟨by decide, pack_datetime_layout ⟨2024, 1, 2, 0, 0, 0, 0⟩ (by decide)⟩

/-- C7 counterexample: in Band2.get_battery the 7-byte timestamp slices
decode only year, month and day; here byte 7 of the buffer — the hour
position under the claimed year-month-day-hour-minute layout — is 5, yet
the decoded last_off carries hour 0. -/
theorem battery_decode_cex :
    get_battery_decode [0, 55, 1, 0xe8, 0x07, 1, 2, 5, 6, 7, 0, 0xe8, 0x07, 3, 4, 0, 0, 0] =
      some ⟨55, .charging, ⟨2024, 1, 2, 0, 0, 0, 0⟩, ⟨2024, 3, 4, 0, 0, 0, 0⟩⟩ ∧
    ([0, 55, 1, 0xe8, 0x07, 1, 2, 5, 6, 7, 0, 0xe8, 0x07, 3, 4, 0, 0, 0] : List Nat).getD 7 0
      = 5 := by decide

/-- C7 amended: for every buffer of at least 18 bytes whose timestamp
fields are in range, the battery decode returns level equal to byte 1,
status Charging iff byte 2 is nonzero, last_off decoded from bytes [3:10)
and last_charge from bytes [11:18), each sub-field holding only a
little-endian signed 16-bit year, a month byte and a day byte followed by
3 ignored pad bytes (hour, minute, second and microsecond are left at
zero). -/
theorem battery_decode_fields (data : List Nat) (hlen : 18 ≤ data.length)
    (ha1 : 1 ≤ data.getD 3 0 + 256 * data.getD 4 0)
    (ha2 : data.getD 3 0 + 256 * data.getD 4 0 ≤ 9999)
    (ha3 : 1 ≤ data.getD 5 0) (ha4 : data.getD 5 0 ≤ 12)
    (ha5 : 1 ≤ data.getD 6 0)
    (ha6 : data.getD 6 0 ≤ daysInMonth (data.getD 3 0 + 256 * data.getD 4 0) (data.getD 5 0))
    (hb1 : 1 ≤ data.getD 11 0 + 256 * data.getD 12 0)
    (hb2 : data.getD 11 0 + 256 * data.getD 12 0 ≤ 9999)
    (hb3 : 1 ≤ data.getD 13 0) (hb4 : data.getD 13 0 ≤ 12)
    (hb5 : 1 ≤ data.getD 14 0)
    (hb6 : data.getD 14 0 ≤
      daysInMonth (data.getD 11 0 + 256 * data.getD 12 0) (data.getD 13 0)) :
    get_battery_decode data =
      some ⟨data.getD 1 0, if data.getD 2 0 = 0 then .normal else .charging,
        ⟨data.getD 3 0 + 256 * data.getD 4 0, data.getD 5 0, data.getD 6 0, 0, 0, 0, 0⟩,
        ⟨data.getD 11 0 + 256 * data.getD 12 0, data.getD 13 0, data.getD 14 0,
          0, 0, 0, 0⟩⟩ := by
  have hda := daysInMonth_le (data.getD 3 0 + 256 * data.getD 4 0) (data.getD 5 0)
  have hdb := daysInMonth_le (data.getD 11 0 + 256 * data.getD 12 0) (data.getD 13 0)
  unfold get_battery_decode
  rw [if_pos hlen, s16le_eq _ _ (by omega), s16le_eq _ _ (by omega),
    sbyte_eq (data.getD 5 0) (by omega), sbyte_eq (data.getD 6 0) (by omega),
    sbyte_eq (data.getD 13 0) (by omega), sbyte_eq (data.getD 14 0) (by omega),
    mkDatetime_date _ _ _ ha1 ha2 ha3 ha4 ha5 ha6,
    mkDatetime_date _ _ _ hb1 hb2 hb3 hb4 hb5 hb6]

theorem battery_decode_fields_witness :
    (18 : Nat) ≤ ([0, 55, 1, 0xe8, 0x07, 1, 2, 5, 6, 7, 0, 0xe8, 0x07, 3, 4, 0, 0, 0] :
      List Nat).length ∧
    get_battery_decode [0, 55, 1, 0xe8, 0x07, 1, 2, 5, 6, 7, 0, 0xe8, 0x07, 3, 4, 0, 0, 0] =
      some ⟨([0, 55, 1, 0xe8, 0x07, 1, 2, 5, 6, 7, 0, 0xe8, 0x07, 3, 4, 0, 0, 0] :
          List Nat).getD 1 0,
        if ([0, 55, 1, 0xe8, 0x07, 1, 2, 5, 6, 7, 0, 0xe8, 0x07, 3, 4, 0, 0, 0] :
            List Nat).getD 2 0 = 0 then .normal else .charging,
        ⟨0xe8 + 256 * 0x07, 1, 2, 0, 0, 0, 0⟩, ⟨0xe8 + 256 * 0x07, 3, 4, 0, 0, 0, 0⟩⟩ :=
  ⟨by decide, battery_decode_fields
    [0, 55, 1, 0xe8, 0x07, 1, 2, 5, 6, 7, 0, 0xe8, 0x07, 3, 4, 0, 0, 0]
    (by decide) (by decide) (by decide) (by decide) (by decide) (by decide) (by decide)
    (by decide) (by decide) (by decide) (by decide) (by decide) (by decide)⟩

end MiBand2
